import Mathlib

/-!
Shallow embedding of `src/gt4sd_trainer/hf_pl/models/core.py`.

The file under verification defines thin PyTorch-Lightning training modules
(`BaseLightningModule`, `LMModule`, `MLMModule`, `CGMModule`, `CLMModule`,
`PLMModule`) that dispatch model construction to the external `transformers`
model-hub loaders and delegate the training-loop hooks.

Modelling choices:
- Python scalar values stored in the `model_args` dictionary become `PyVal`;
  `isinstance(x, float)` becomes `PyVal.isFloat`.
- Python dictionary access `d[k]` becomes `dictGet`, raising a `KeyError`
  (as a `PyError`) when the key is absent.
- Python exception propagation becomes the `Except PyError` monad.
- The external hub loaders (`AutoModel.from_pretrained`, `AutoConfig`,
  each `from_config`, and the base tokenizer resolution) are an abstract
  environment record `Hub`: one field per library entry point the source calls.
- A network is a record carrying its embedding-table row count, its parameter
  list, and its forward behavior (`model(x)` and `model(**batch)`, each
  producing an output object with `logits`/`loss` fields).
- Methods on the lightning module are pure state-passing functions: the
  returned module component models the post-call `self`.
-/

namespace GT4SDCore

/-- Python scalar values that can appear in the `model_args` mapping. -/
inductive PyVal where
  | float (q : ℚ)
  | int (n : ℤ)
  | str (s : String)
  | bool (b : Bool)
  | none
deriving DecidableEq, Repr

/-- The Python check `isinstance(x, float)`: in Python neither `int` nor
`bool` nor `str` nor `None` is an instance of `float`. -/
def PyVal.isFloat : PyVal → Bool
  | PyVal.float _ => true
  | _ => false

/-- Python exceptions that the source code can raise or propagate. -/
inductive PyError where
  | keyError (key : String)
  | valueError (msg : String)
  | loadError (msg : String)
deriving DecidableEq, Repr

/-- The `model_args` dictionary, as an association list of string keys. -/
abbrev ModelArgs := List (String × PyVal)

/-- Python dictionary access `d[k]`: the value when present, `KeyError`
otherwise. -/
def dictGet (d : ModelArgs) (k : String) : Except PyError PyVal :=
  match d.lookup k with
  | some v => Except.ok v
  | Option.none => Except.error (PyError.keyError k)

/-- The cache directory computed in `LMModule.__init__` (core.py lines
152 to 154): `None`, overridden by `model_args["cache_dir"]` when that key
is present. -/
def cacheDirOf (args : ModelArgs) : PyVal :=
  match args.lookup "cache_dir" with
  | some v => v
  | Option.none => PyVal.none

/-- A tensor, abstracted as a list of rationals. -/
abbrev Tensor := List ℚ

/-- The output object returned by calling a transformers network: it exposes
a `logits` field and a `loss` field. -/
structure ModelOutput where
  logits : Tensor
  loss : Tensor

/-- A batch: a mapping from field names (input ids, labels, attention, ...)
to tensors, passed to the network as keyword arguments. -/
abbrev Batch := List (String × Tensor)

/-- A wrapped neural network (`torch.nn.Module` produced by a hub loader):
its embedding-table row count, its trainable parameters, the computation
`model(x)` on a single tensor, and the computation `model(**batch)` on a
keyword batch. -/
structure Network where
  embeddingRows : ℕ
  parameters : List ℚ
  call : Tensor → ModelOutput
  callKw : Batch → ModelOutput

/-- The library call `model.resize_token_embeddings(n)`: the input/output
embedding tables are resized to `n` rows. -/
def Network.resize_token_embeddings (m : Network) (n : ℕ) : Network :=
  { m with embeddingRows := n }

/-- A tokenizer: its vocabulary (whose length is `len(tokenizer)`) and its
optional separator and padding special tokens. -/
structure Tokenizer where
  vocab : List String
  sepToken : Option String
  padToken : Option String
deriving DecidableEq, Repr

/-- The value of `len(tokenizer)`: the vocabulary size, added tokens
included. -/
def Tokenizer.len (t : Tokenizer) : ℕ := t.vocab.length

/-- Setting the `sep_token` special token on a tokenizer: the token is
recorded and appended to the vocabulary when not already present (the
documented behavior of the external tokenizer library when a special-token
keyword is passed to `from_pretrained`). -/
def Tokenizer.setSepToken (t : Tokenizer) (s : String) : Tokenizer :=
  { t with
    sepToken := some s
    vocab := if s ∈ t.vocab then t.vocab else t.vocab ++ [s] }

/-- Setting the `pad_token` special token on a tokenizer, same semantics as
`Tokenizer.setSepToken`. -/
def Tokenizer.setPadToken (t : Tokenizer) (p : String) : Tokenizer :=
  { t with
    padToken := some p
    vocab := if p ∈ t.vocab then t.vocab else t.vocab ++ [p] }

/-- The architecture configuration object returned by
`AutoConfig.from_pretrained`; its contents are opaque to the source code. -/
structure HFConfig where
  raw : ℕ
deriving DecidableEq, Repr

/-- The external model-hub and tokenizer-loading environment: one field per
`transformers` entry point called by core.py. `from_pretrained` loaders take
the identifier/path value and the cache-directory value and may fail;
`from_config` constructors are total on an already-loaded configuration. -/
structure Hub where
  AutoModel_from_pretrained : PyVal → PyVal → Except PyError Network
  AutoModelForMaskedLM_from_pretrained : PyVal → PyVal → Except PyError Network
  AutoModelForCausalLM_from_pretrained : PyVal → PyVal → Except PyError Network
  AutoModelForSeq2SeqLM_from_pretrained : PyVal → PyVal → Except PyError Network
  XLNetLMHeadModel_from_pretrained : PyVal → PyVal → Except PyError Network
  AutoConfig_from_pretrained : PyVal → PyVal → Except PyError HFConfig
  AutoModel_from_config : HFConfig → Network
  AutoModelForMaskedLM_from_config : HFConfig → Network
  AutoModelForCausalLM_from_config : HFConfig → Network
  AutoModelForSeq2SeqLM_from_config : HFConfig → Network
  XLNetLMHeadModel_from_config : HFConfig → Network
  AutoTokenizer_base : PyVal → Except PyError Tokenizer

/-- The library call `AutoTokenizer.from_pretrained(ident, sep_token=...,
pad_token=..., use_fast=False)`: resolve the identifier to a base tokenizer
through the hub, then apply the special-token keyword arguments in order,
each adding its token to the vocabulary when absent. When no special-token
keywords are passed the base tokenizer is returned unchanged. -/
def AutoTokenizer_from_pretrained (hub : Hub) (ident : PyVal)
    (sep_token pad_token : Option String) : Except PyError Tokenizer := do
  let base ← hub.AutoTokenizer_base ident
  let t := match sep_token with
    | some s => base.setSepToken s
    | Option.none => base
  let t := match pad_token with
    | some p => t.setPadToken p
    | Option.none => t
  return t

/-- The state of a `BaseLightningModule`: the `model_args` mapping stored by
`__init__` (core.py line 64) and the wrapped network `self.model`. -/
structure BaseLightningModule where
  model_args : ModelArgs
  model : Network

/-- The lightning call `self.parameters()`: the wrapped network's trainable
parameters (the module owns no other submodule). -/
def BaseLightningModule.parameters (m : BaseLightningModule) : List ℚ :=
  m.model.parameters

/-- Embedding of `BaseLightningModule.forward` (core.py lines 68 to 75): return
`self.model(x).logits`. The first component is the post-call `self`. -/
def BaseLightningModule.forward (m : BaseLightningModule) (x : Tensor) :
    BaseLightningModule × Tensor :=
  (m, (m.model.call x).logits)

/-- The optimizer object built by `optim.AdamW(self.parameters(), lr=...,
weight_decay=...)`. The configuration values are stored as the Python values
that were passed (core.py lines 94 to 98 forward them straight from
`model_args`). -/
structure AdamW where
  params : List ℚ
  lr : PyVal
  weight_decay : PyVal

/-- The scheduler object built by `optim.lr_scheduler.StepLR(optimizer, 1,
lr_decay)` (core.py line 100). -/
structure StepLR where
  optimizer : AdamW
  step_size : ℕ
  gamma : PyVal

/-- The dictionary returned by `configure_optimizers` (core.py lines 102 to
106): keys `optimizer`, `lr_scheduler` and `monitor`. -/
structure OptimizerOutput where
  optimizer : AdamW
  lr_scheduler : StepLR
  monitor : String

/-- Embedding of `BaseLightningModule.configure_optimizers` (core.py lines 77 to 107):
validate that `model_args["lr"]` and `model_args["lr_decay"]` are floats
(raising `ValueError` otherwise), then build the AdamW optimizer over the
module parameters with the configured learning rate and weight decay, the
step-1 StepLR scheduler with factor `lr_decay`, and return them with the
monitored metric `"val_loss"`. The first component is the post-call
`self`. -/
def BaseLightningModule.configure_optimizers (m : BaseLightningModule) :
    BaseLightningModule × Except PyError OptimizerOutput :=
  (m, do
    let lr ← dictGet m.model_args "lr"
    if !lr.isFloat then
      throw (PyError.valueError "Learning rate should be float")
    let lr_decay ← dictGet m.model_args "lr_decay"
    if !lr_decay.isFloat then
      throw (PyError.valueError "Learning rate decay rate should be float")
    let weight_decay ← dictGet m.model_args "weight_decay"
    let optimizer : AdamW :=
      { params := m.parameters, lr := lr, weight_decay := weight_decay }
    let scheduler : StepLR :=
      { optimizer := optimizer, step_size := 1, gamma := lr_decay }
    return { optimizer := optimizer, lr_scheduler := scheduler,
             monitor := "val_loss" })

/-- The result of a training or validation step: the post-call `self`, the
returned loss, and the metrics recorded through `self.log`. -/
structure StepResult where
  module : BaseLightningModule
  loss : Tensor
  logged : List (String × Tensor)

/-- Embedding of `BaseLightningModule.training_step` (core.py lines 109 to 120): compute
`self.model(**batch).loss`, log it as `"train_loss"`, return it. -/
def BaseLightningModule.training_step (m : BaseLightningModule)
    (batch : Batch) (batch_idx : ℤ) : StepResult :=
  let loss := (m.model.callKw batch).loss
  { module := m, loss := loss, logged := [("train_loss", loss)] }

/-- Embedding of `BaseLightningModule.validation_step` (core.py lines 122 to 133): compute
`self.model(**batch).loss`, log it as `"val_loss"`, return it. -/
def BaseLightningModule.validation_step (m : BaseLightningModule)
    (batch : Batch) (batch_idx : ℤ) : StepResult :=
  let loss := (m.model.callKw batch).loss
  { module := m, loss := loss, logged := [("val_loss", loss)] }

/-- The outcome of `LMModule.init_model`: the network stored into
`self.model` and the informational messages logged during construction. -/
structure LMInit where
  model : Network
  logs : List String

/-- The outcome of `init_model` for the four tokenizer-bearing variants: the
network, the tokenizer stored into `self.tokenizer`, and the informational
messages logged during construction. -/
structure TokInit where
  model : Network
  tokenizer : Tokenizer
  logs : List String

/-- The tokenizer tail shared by the four tokenizer-bearing `init_model`
bodies (core.py lines 195 to 199, 222 to 226, 248 to 255, 278 to 282): load
the tokenizer named by `model_args["tokenizer"]` with the given special-token
keywords, then resize the network's token embeddings to `len(tokenizer)`. -/
def attachTokenizer (hub : Hub) (args : ModelArgs)
    (sep_token pad_token : Option String) (model : Network)
    (logs : List String) : Except PyError TokInit := do
  let tok_id ← dictGet args "tokenizer"
  let tokenizer ← AutoTokenizer_from_pretrained hub tok_id sep_token pad_token
  return { model := model.resize_token_embeddings tokenizer.len,
           tokenizer := tokenizer, logs := logs }

/-- Embedding of `LMModule.init_model` (core.py lines 158 to 173): when
`model_args["model_name_or_path"]` is not `None`, load the network with
`AutoModel.from_pretrained` from that identifier and the cache directory;
otherwise load the configuration named `model_args["model_config_name"]`,
build the network from it with `AutoModel.from_config`, and log
"Training from scratch". -/
def LMModule.init_model (hub : Hub) (args : ModelArgs) :
    Except PyError LMInit := do
  let mnp ← dictGet args "model_name_or_path"
  if mnp ≠ PyVal.none then
    let model ← hub.AutoModel_from_pretrained mnp (cacheDirOf args)
    return { model := model, logs := [] }
  else
    let config_name ← dictGet args "model_config_name"
    let config ← hub.AutoConfig_from_pretrained config_name (cacheDirOf args)
    return { model := hub.AutoModel_from_config config,
             logs := ["Training from scratch"] }

/-- Embedding of `MLMModule.init_model` (core.py lines 179 to 199): same dispatch as
`LMModule.init_model` but through `AutoModelForMaskedLM`, followed by the
tokenizer load (no special-token keywords) and the embedding resize. -/
def MLMModule.init_model (hub : Hub) (args : ModelArgs) :
    Except PyError TokInit := do
  let mnp ← dictGet args "model_name_or_path"
  if mnp ≠ PyVal.none then
    let model ← hub.AutoModelForMaskedLM_from_pretrained mnp (cacheDirOf args)
    attachTokenizer hub args Option.none Option.none model []
  else
    let config_name ← dictGet args "model_config_name"
    let config ← hub.AutoConfig_from_pretrained config_name (cacheDirOf args)
    attachTokenizer hub args Option.none Option.none
      (hub.AutoModelForMaskedLM_from_config config) ["Training from scratch"]

/-- Embedding of `CGMModule.init_model` (core.py lines 205 to 226): same dispatch through
`AutoModelForSeq2SeqLM`, followed by the tokenizer load (no special-token
keywords) and the embedding resize. -/
def CGMModule.init_model (hub : Hub) (args : ModelArgs) :
    Except PyError TokInit := do
  let mnp ← dictGet args "model_name_or_path"
  if mnp ≠ PyVal.none then
    let model ← hub.AutoModelForSeq2SeqLM_from_pretrained mnp (cacheDirOf args)
    attachTokenizer hub args Option.none Option.none model []
  else
    let config_name ← dictGet args "model_config_name"
    let config ← hub.AutoConfig_from_pretrained config_name (cacheDirOf args)
    attachTokenizer hub args Option.none Option.none
      (hub.AutoModelForSeq2SeqLM_from_config config) ["Training from scratch"]

/-- Embedding of `CLMModule.init_model` (core.py lines 232 to 255): same dispatch through
`AutoModelForCausalLM`, followed by the tokenizer load with
`sep_token="<|sep|>"` and `pad_token="<|pad|>"` and the embedding resize. -/
def CLMModule.init_model (hub : Hub) (args : ModelArgs) :
    Except PyError TokInit := do
  let mnp ← dictGet args "model_name_or_path"
  if mnp ≠ PyVal.none then
    let model ← hub.AutoModelForCausalLM_from_pretrained mnp (cacheDirOf args)
    attachTokenizer hub args (some "<|sep|>") (some "<|pad|>") model []
  else
    let config_name ← dictGet args "model_config_name"
    let config ← hub.AutoConfig_from_pretrained config_name (cacheDirOf args)
    attachTokenizer hub args (some "<|sep|>") (some "<|pad|>")
      (hub.AutoModelForCausalLM_from_config config) ["Training from scratch"]

/-- Embedding of `PLMModule.init_model` (core.py lines 261 to 282): same dispatch through
`XLNetLMHeadModel`, followed by the tokenizer load (no special-token
keywords) and the embedding resize. -/
def PLMModule.init_model (hub : Hub) (args : ModelArgs) :
    Except PyError TokInit := do
  let mnp ← dictGet args "model_name_or_path"
  if mnp ≠ PyVal.none then
    let model ← hub.XLNetLMHeadModel_from_pretrained mnp (cacheDirOf args)
    attachTokenizer hub args Option.none Option.none model []
  else
    let config_name ← dictGet args "model_config_name"
    let config ← hub.AutoConfig_from_pretrained config_name (cacheDirOf args)
    attachTokenizer hub args Option.none Option.none
      (hub.XLNetLMHeadModel_from_config config) ["Training from scratch"]

/-- True exactly when an `Except` computation ended in an error. -/
def isErr {ε α : Type} : Except ε α → Bool
  | Except.error _ => true
  | Except.ok _ => false

/-- Invariant checked on the outcome of a tokenizer-bearing `init_model`:
when construction succeeds, the network's embedding-table row count equals
the tokenizer's vocabulary size. -/
def tokRowsOk : Except PyError TokInit → Prop
  | Except.ok r => r.model.embeddingRows = r.tokenizer.len
  | Except.error _ => True

/-- Invariant checked on the outcome of `CLMModule.init_model`: when
construction succeeds, the tokenizer carries a separator token and a padding
token, both present in its vocabulary, and the embedding tables were resized
to the vocabulary size counted after the injection of those tokens. -/
def clmTokOk : Except PyError TokInit → Prop
  | Except.ok r =>
      r.tokenizer.sepToken = some "<|sep|>" ∧
      r.tokenizer.padToken = some "<|pad|>" ∧
      "<|sep|>" ∈ r.tokenizer.vocab ∧
      "<|pad|>" ∈ r.tokenizer.vocab ∧
      r.model.embeddingRows = r.tokenizer.len
  | Except.error _ => True

/-- A concrete model output used by the sample environment below. -/
def demoOutput : ModelOutput := { logits := [0], loss := [0] }

/-- A concrete network used by the sample environment below. -/
def demoNet : Network :=
  { embeddingRows := 7, parameters := [0]
    call := fun _ => demoOutput, callKw := fun _ => demoOutput }

/-- A concrete base tokenizer with three vocabulary entries and no special
tokens. -/
def demoTok : Tokenizer :=
  { vocab := ["a", "b", "c"], sepToken := Option.none, padToken := Option.none }

/-- A concrete architecture configuration. -/
def demoConfig : HFConfig := { raw := 0 }

/-- A sample hub environment on which every loader succeeds. -/
def demoHub : Hub :=
  { AutoModel_from_pretrained := fun _ _ => Except.ok demoNet
    AutoModelForMaskedLM_from_pretrained := fun _ _ => Except.ok demoNet
    AutoModelForCausalLM_from_pretrained := fun _ _ => Except.ok demoNet
    AutoModelForSeq2SeqLM_from_pretrained := fun _ _ => Except.ok demoNet
    XLNetLMHeadModel_from_pretrained := fun _ _ => Except.ok demoNet
    AutoConfig_from_pretrained := fun _ _ => Except.ok demoConfig
    AutoModel_from_config := fun _ => demoNet
    AutoModelForMaskedLM_from_config := fun _ => demoNet
    AutoModelForCausalLM_from_config := fun _ => demoNet
    AutoModelForSeq2SeqLM_from_config := fun _ => demoNet
    XLNetLMHeadModel_from_config := fun _ => demoNet
    AutoTokenizer_base := fun _ => Except.ok demoTok }

/-- A sample hub environment on which configuration resolution fails. -/
def demoFailHub : Hub :=
  { demoHub with
    AutoConfig_from_pretrained :=
      fun _ _ => Except.error (PyError.loadError "unresolvable config") }

/-- Sample `model_args` with a pretrained identifier and float learning
rates. -/
def demoArgs : ModelArgs :=
  [("model_name_or_path", PyVal.str "gpt2"), ("tokenizer", PyVal.str "tok"),
   ("lr", PyVal.float 1), ("lr_decay", PyVal.float (1/2)),
   ("weight_decay", PyVal.float 0)]

/-- Sample `model_args` with `model_name_or_path` set to `None`. -/
def demoNoneArgs : ModelArgs :=
  [("model_name_or_path", PyVal.none), ("model_config_name", PyVal.str "bert"),
   ("tokenizer", PyVal.str "tok")]

/-- A sample module whose configuration values are all valid floats. -/
def demoModule : BaseLightningModule :=
  { model_args := demoArgs, model := demoNet }

/-- A sample module whose learning rate is the integer 1 instead of 1.0. -/
def demoBadLrModule : BaseLightningModule :=
  { model_args :=
      [("lr", PyVal.int 1), ("lr_decay", PyVal.float (1/2)),
       ("weight_decay", PyVal.float 0)]
    model := demoNet }

/-- A sample module whose weight decay is a string rather than a number. -/
def demoOddWdModule : BaseLightningModule :=
  { model_args :=
      [("lr", PyVal.float 1), ("lr_decay", PyVal.float (1/2)),
       ("weight_decay", PyVal.str "oops")]
    model := demoNet }

theorem tokRowsOk_bind {α : Type} (e : Except PyError α)
    (f : α → Except PyError TokInit) (h : ∀ x, tokRowsOk (f x)) :
    tokRowsOk (e >>= f) := by
  cases e with
  | error err => simp [Bind.bind, Except.bind, tokRowsOk]
  | ok x => simpa [Bind.bind, Except.bind] using h x

theorem attachTokenizer_rows (hub : Hub) (args : ModelArgs)
    (sep_token pad_token : Option String) (model : Network)
    (logs : List String) :
    tokRowsOk (attachTokenizer hub args sep_token pad_token model logs) := by
  unfold attachTokenizer
  apply tokRowsOk_bind
  intro tok_id
  apply tokRowsOk_bind
  intro tokenizer
  simp [tokRowsOk, pure, Except.pure, Network.resize_token_embeddings,
    Tokenizer.len]

theorem setSepToken_mem (t : Tokenizer) (s : String) :
    s ∈ (t.setSepToken s).vocab := by
  by_cases h : s ∈ t.vocab <;> simp [Tokenizer.setSepToken, h]

theorem setPadToken_mem (t : Tokenizer) (p : String) :
    p ∈ (t.setPadToken p).vocab := by
  by_cases h : p ∈ t.vocab <;> simp [Tokenizer.setPadToken, h]

theorem setPadToken_vocab_mono (t : Tokenizer) (p x : String)
    (hx : x ∈ t.vocab) : x ∈ (t.setPadToken p).vocab := by
  by_cases h : p ∈ t.vocab <;> simp [Tokenizer.setPadToken, h, hx]

theorem clmTokOk_bind {α : Type} (e : Except PyError α)
    (f : α → Except PyError TokInit) (h : ∀ x, clmTokOk (f x)) :
    clmTokOk (e >>= f) := by
  cases e with
  | error err => simp [Bind.bind, Except.bind, clmTokOk]
  | ok x => simpa [Bind.bind, Except.bind] using h x

theorem attachTokenizer_clm (hub : Hub) (args : ModelArgs) (model : Network)
    (logs : List String) :
    clmTokOk (attachTokenizer hub args (some "<|sep|>") (some "<|pad|>")
      model logs) := by
  unfold attachTokenizer
  apply clmTokOk_bind
  intro tok_id
  cases hb : hub.AutoTokenizer_base tok_id with
  | error e =>
      simp [AutoTokenizer_from_pretrained, hb, Bind.bind, Except.bind,
        clmTokOk]
  | ok base =>
      simp only [AutoTokenizer_from_pretrained, hb, Bind.bind, Except.bind,
        pure, Except.pure, clmTokOk, Network.resize_token_embeddings]
      refine ⟨rfl, rfl, ?_, setPadToken_mem _ _, trivial⟩
      exact setPadToken_vocab_mono _ _ _ (setSepToken_mem base "<|sep|>")

/-- C2: for each of the four tokenizer-bearing variants (mlm, clm, cgm,
plm), whenever `init_model` succeeds the constructed module holds its single
tokenizer and the network's embedding tables were resized so that their row
count equals the tokenizer's vocabulary size `len(tokenizer)`. -/
theorem c2_embedding_rows_match_tokenizer (hub : Hub) (args : ModelArgs) :
    tokRowsOk (MLMModule.init_model hub args) ∧
    tokRowsOk (CLMModule.init_model hub args) ∧
    tokRowsOk (CGMModule.init_model hub args) ∧
    tokRowsOk (PLMModule.init_model hub args) := by
  refine ⟨?_, ?_, ?_, ?_⟩ <;>
    [unfold MLMModule.init_model; unfold CLMModule.init_model;
     unfold CGMModule.init_model; unfold PLMModule.init_model] <;>
  · apply tokRowsOk_bind
    intro mnp
    split
    · apply tokRowsOk_bind
      intro model
      apply attachTokenizer_rows
    · apply tokRowsOk_bind
      intro config_name
      apply tokRowsOk_bind
      intro config
      apply attachTokenizer_rows

/-- C5: for every hub environment (hence every base tokenizer, including one
lacking a separator or padding token), whenever the causal-LM variant's
`init_model` succeeds its tokenizer carries both the separator token
`<|sep|>` and the padding token `<|pad|>`, both are present in the
vocabulary, and the embedding tables were resized to the vocabulary size
counted after those two tokens were injected. -/
theorem c5_clm_special_tokens (hub : Hub) (args : ModelArgs) :
    clmTokOk (CLMModule.init_model hub args) := by
  unfold CLMModule.init_model
  apply clmTokOk_bind
  intro mnp
  split
  · apply clmTokOk_bind
    intro model
    apply attachTokenizer_clm
  · apply clmTokOk_bind
    intro config_name
    apply clmTokOk_bind
    intro config
    apply attachTokenizer_clm

/-- C6: for every batch, `training_step` returns the wrapped network's
built-in loss on the batch and records it under the metric name
`train_loss`; `validation_step` does the same under the metric name
`val_loss`. -/
theorem c6_step_delegates_and_logs (m : BaseLightningModule) (batch : Batch)
    (i : ℤ) :
    (m.training_step batch i).loss = (m.model.callKw batch).loss ∧
    (m.training_step batch i).logged =
      [("train_loss", (m.model.callKw batch).loss)] ∧
    (m.validation_step batch i).loss = (m.model.callKw batch).loss ∧
    (m.validation_step batch i).logged =
      [("val_loss", (m.model.callKw batch).loss)] :=
  ⟨rfl, rfl, rfl, rfl⟩

/-- C7: for every input tensor of token ids, `forward` returns exactly the
logits tensor produced by the wrapped network's standard forward computation
on that input, unchanged. -/
theorem c7_forward_returns_logits (m : BaseLightningModule) (x : Tensor) :
    (m.forward x).2 = (m.model.call x).logits := rfl

/-- C9: the `model_args` mapping is never mutated after construction: each
of `forward`, `training_step`, `validation_step` and `configure_optimizers`
leaves the module's `model_args` exactly as supplied. -/
theorem c9_model_args_frame (m : BaseLightningModule) (x : Tensor)
    (batch : Batch) (i : ℤ) :
    (m.forward x).1.model_args = m.model_args ∧
    (m.training_step batch i).module.model_args = m.model_args ∧
    (m.validation_step batch i).module.model_args = m.model_args ∧
    (m.configure_optimizers).1.model_args = m.model_args :=
  ⟨rfl, rfl, rfl, rfl⟩

theorem ok_bind {α β : Type} (a : α) (f : α → Except PyError β) :
    (Except.ok a >>= f) = f a := rfl

/-- C3: when `model_args["lr"]` is not a float the optimizer setup raises
the learning-rate `ValueError`; when it is a float but
`model_args["lr_decay"]` is not, it raises the decay `ValueError`; when both
are floats no `ValueError` is raised, and in each failing case the error is
returned before any optimizer object appears in the result. -/
theorem c3_float_validation (m : BaseLightningModule) (lr lrd : PyVal)
    (hlr : m.model_args.lookup "lr" = some lr)
    (hld : m.model_args.lookup "lr_decay" = some lrd) :
    (lr.isFloat = false →
      (m.configure_optimizers).2 =
        Except.error (PyError.valueError "Learning rate should be float")) ∧
    (lr.isFloat = true → lrd.isFloat = false →
      (m.configure_optimizers).2 =
        Except.error
          (PyError.valueError "Learning rate decay rate should be float")) ∧
    (lr.isFloat = true → lrd.isFloat = true →
      ∀ msg, (m.configure_optimizers).2 ≠
        Except.error (PyError.valueError msg)) := by
  refine ⟨?_, ?_, ?_⟩
  · intro h
    simp [BaseLightningModule.configure_optimizers, dictGet, hlr, h,
      Bind.bind, Except.bind, throw, throwThe, MonadExceptOf.throw]
  · intro h1 h2
    simp [BaseLightningModule.configure_optimizers, dictGet, hlr, hld, h1, h2,
      Bind.bind, Except.bind, throw, throwThe, MonadExceptOf.throw, pure,
      Except.pure]
  · intro h1 h2 msg
    cases hwd : m.model_args.lookup "weight_decay" with
    | none =>
      simp [BaseLightningModule.configure_optimizers, dictGet, hlr, hld, hwd,
        h1, h2, Bind.bind, Except.bind, throw, throwThe, MonadExceptOf.throw,
        pure, Except.pure]
    | some w =>
      simp [BaseLightningModule.configure_optimizers, dictGet, hlr, hld, hwd,
        h1, h2, Bind.bind, Except.bind, throw, throwThe, MonadExceptOf.throw,
        pure, Except.pure]

/-- Witness for C3 at a concrete module whose learning rate is the integer 1
instead of 1.0. -/
theorem c3_float_validation_witness :
    (demoBadLrModule.configure_optimizers).2 =
      Except.error (PyError.valueError "Learning rate should be float") :=
  (c3_float_validation demoBadLrModule (PyVal.int 1) (PyVal.float (1/2))
    rfl rfl).1 rfl

/-- C4: when the learning rate and decay values are floats,
`configure_optimizers` returns the mapping holding the AdamW optimizer over
the module's parameters with the configured learning rate and weight decay,
the step-size-1 StepLR scheduler with factor `lr_decay`, and the monitored
metric name `val_loss`. -/
theorem c4_optimizer_output (m : BaseLightningModule) (a d : ℚ) (w : PyVal)
    (hlr : m.model_args.lookup "lr" = some (PyVal.float a))
    (hld : m.model_args.lookup "lr_decay" = some (PyVal.float d))
    (hwd : m.model_args.lookup "weight_decay" = some w) :
    (m.configure_optimizers).2 =
      Except.ok
        { optimizer :=
            { params := m.parameters, lr := PyVal.float a, weight_decay := w }
          lr_scheduler :=
            { optimizer := { params := m.parameters, lr := PyVal.float a,
                             weight_decay := w }
              step_size := 1, gamma := PyVal.float d }
          monitor := "val_loss" } := by
  simp [BaseLightningModule.configure_optimizers, dictGet, hlr, hld, hwd,
    PyVal.isFloat, Bind.bind, Except.bind, pure, Except.pure]

/-- Witness for C4 at a concrete module with float configuration values. -/
theorem c4_optimizer_output_witness :
    (demoModule.configure_optimizers).2 =
      Except.ok
        { optimizer :=
            { params := demoModule.parameters, lr := PyVal.float 1,
              weight_decay := PyVal.float 0 }
          lr_scheduler :=
            { optimizer := { params := demoModule.parameters,
                             lr := PyVal.float 1,
                             weight_decay := PyVal.float 0 }
              step_size := 1, gamma := PyVal.float (1/2) }
          monitor := "val_loss" } :=
  c4_optimizer_output demoModule 1 (1/2) (PyVal.float 0) rfl rfl rfl

/-- C10: the weight-decay value is never validated: with float learning
rates, `configure_optimizers` succeeds whatever Python value
`model_args["weight_decay"]` holds and forwards that value unchanged into
the optimizer object. -/
theorem c10_weight_decay_unchecked (m : BaseLightningModule) (a d : ℚ)
    (w : PyVal)
    (hlr : m.model_args.lookup "lr" = some (PyVal.float a))
    (hld : m.model_args.lookup "lr_decay" = some (PyVal.float d))
    (hwd : m.model_args.lookup "weight_decay" = some w) :
    Except.map (fun out => out.optimizer.weight_decay)
      (m.configure_optimizers).2 = Except.ok w := by
  simp [BaseLightningModule.configure_optimizers, dictGet, hlr, hld, hwd,
    PyVal.isFloat, Bind.bind, Except.bind, pure, Except.pure, Except.map]

/-- Witness for C10 at a concrete module whose weight decay is the string
"oops": optimizer setup still succeeds and stores that string. -/
theorem c10_weight_decay_unchecked_witness :
    Except.map (fun out => out.optimizer.weight_decay)
      (demoOddWdModule.configure_optimizers).2 =
      Except.ok (PyVal.str "oops") :=
  c10_weight_decay_unchecked demoOddWdModule 1 (1/2) (PyVal.str "oops")
    rfl rfl rfl

theorem isErr_config_chain {β : Type} (hub : Hub) (args : ModelArgs)
    (k : HFConfig → Except PyError β)
    (h2 : ∀ cn, args.lookup "model_config_name" = some cn →
        isErr (hub.AutoConfig_from_pretrained cn (cacheDirOf args)) = true) :
    isErr (dictGet args "model_config_name" >>= fun config_name =>
      hub.AutoConfig_from_pretrained config_name (cacheDirOf args) >>= k) =
      true := by
  cases hcn : args.lookup "model_config_name" with
  | none => simp [dictGet, hcn, Bind.bind, Except.bind, isErr]
  | some cn =>
    have h := h2 cn hcn
    cases hc : hub.AutoConfig_from_pretrained cn (cacheDirOf args) with
    | error e => simp [dictGet, hcn, hc, Bind.bind, Except.bind, isErr]
    | ok c => rw [hc] at h; simp [isErr] at h

/-- C8: for every variant, when `model_args["model_name_or_path"]` is `None`
and the architecture-configuration name cannot be resolved (the key is
absent, or the external configuration loader fails on it), `init_model`
fails instead of producing a module. -/
theorem c8_fails_without_config (hub : Hub) (args : ModelArgs)
    (h1 : args.lookup "model_name_or_path" = some PyVal.none)
    (h2 : ∀ cn, args.lookup "model_config_name" = some cn →
        isErr (hub.AutoConfig_from_pretrained cn (cacheDirOf args)) = true) :
    isErr (LMModule.init_model hub args) = true ∧
    isErr (MLMModule.init_model hub args) = true ∧
    isErr (CGMModule.init_model hub args) = true ∧
    isErr (CLMModule.init_model hub args) = true ∧
    isErr (PLMModule.init_model hub args) = true := by
  have hd : dictGet args "model_name_or_path" = Except.ok PyVal.none := by
    simp [dictGet, h1]
  refine ⟨?_, ?_, ?_, ?_, ?_⟩ <;>
    [unfold LMModule.init_model; unfold MLMModule.init_model;
     unfold CGMModule.init_model; unfold CLMModule.init_model;
     unfold PLMModule.init_model] <;>
  · rw [hd]
    simp only [ok_bind, ne_eq, not_true_eq_false, if_false, ite_false]
    exact isErr_config_chain hub args _ h2

/-- C1: every variant's `init_model` dispatches on the pretrained
identifier. When `model_args["model_name_or_path"]` is not `None`, the
network is loaded by the variant's `from_pretrained` loader from that
identifier together with the configured cache directory, and nothing is
logged; otherwise the architecture configuration is loaded by
`model_args["model_config_name"]` (with the cache directory), the network
is built fresh from it by the variant's `from_config` constructor, and the
message "Training from scratch" is logged. -/
theorem c1_pretrained_dispatch (hub : Hub) (args : ModelArgs) (v : PyVal)
    (hv : args.lookup "model_name_or_path" = some v) :
    (v ≠ PyVal.none →
      (LMModule.init_model hub args =
        hub.AutoModel_from_pretrained v (cacheDirOf args) >>= fun model =>
          pure { model := model, logs := [] }) ∧
      (MLMModule.init_model hub args =
        hub.AutoModelForMaskedLM_from_pretrained v (cacheDirOf args) >>=
          fun model =>
            attachTokenizer hub args Option.none Option.none model []) ∧
      (CGMModule.init_model hub args =
        hub.AutoModelForSeq2SeqLM_from_pretrained v (cacheDirOf args) >>=
          fun model =>
            attachTokenizer hub args Option.none Option.none model []) ∧
      (CLMModule.init_model hub args =
        hub.AutoModelForCausalLM_from_pretrained v (cacheDirOf args) >>=
          fun model =>
            attachTokenizer hub args (some "<|sep|>") (some "<|pad|>")
              model []) ∧
      (PLMModule.init_model hub args =
        hub.XLNetLMHeadModel_from_pretrained v (cacheDirOf args) >>=
          fun model =>
            attachTokenizer hub args Option.none Option.none model [])) ∧
    (v = PyVal.none →
      (LMModule.init_model hub args =
        dictGet args "model_config_name" >>= fun config_name =>
          hub.AutoConfig_from_pretrained config_name (cacheDirOf args) >>=
            fun config =>
              pure { model := hub.AutoModel_from_config config,
                     logs := ["Training from scratch"] }) ∧
      (MLMModule.init_model hub args =
        dictGet args "model_config_name" >>= fun config_name =>
          hub.AutoConfig_from_pretrained config_name (cacheDirOf args) >>=
            fun config =>
              attachTokenizer hub args Option.none Option.none
                (hub.AutoModelForMaskedLM_from_config config)
                ["Training from scratch"]) ∧
      (CGMModule.init_model hub args =
        dictGet args "model_config_name" >>= fun config_name =>
          hub.AutoConfig_from_pretrained config_name (cacheDirOf args) >>=
            fun config =>
              attachTokenizer hub args Option.none Option.none
                (hub.AutoModelForSeq2SeqLM_from_config config)
                ["Training from scratch"]) ∧
      (CLMModule.init_model hub args =
        dictGet args "model_config_name" >>= fun config_name =>
          hub.AutoConfig_from_pretrained config_name (cacheDirOf args) >>=
            fun config =>
              attachTokenizer hub args (some "<|sep|>") (some "<|pad|>")
                (hub.AutoModelForCausalLM_from_config config)
                ["Training from scratch"]) ∧
      (PLMModule.init_model hub args =
        dictGet args "model_config_name" >>= fun config_name =>
          hub.AutoConfig_from_pretrained config_name (cacheDirOf args) >>=
            fun config =>
              attachTokenizer hub args Option.none Option.none
                (hub.XLNetLMHeadModel_from_config config)
                ["Training from scratch"])) := by
  have hd : dictGet args "model_name_or_path" = Except.ok v := by
    simp [dictGet, hv]
  constructor
  · intro hne
    refine ⟨?_, ?_, ?_, ?_, ?_⟩ <;>
      [unfold LMModule.init_model; unfold MLMModule.init_model;
       unfold CGMModule.init_model; unfold CLMModule.init_model;
       unfold PLMModule.init_model] <;>
    · rw [hd]
      simp only [ok_bind]
      rw [if_pos hne]
  · intro he
    subst he
    refine ⟨?_, ?_, ?_, ?_, ?_⟩ <;>
      [unfold LMModule.init_model; unfold MLMModule.init_model;
       unfold CGMModule.init_model; unfold CLMModule.init_model;
       unfold PLMModule.init_model] <;>
    · rw [hd]
      simp only [ok_bind, ne_eq, not_true_eq_false, if_false, ite_false]

/-- Witness for C1 at a concrete hub and concrete arguments carrying the
pretrained identifier "gpt2". -/
theorem c1_pretrained_dispatch_witness :
    LMModule.init_model demoHub demoArgs =
      demoHub.AutoModel_from_pretrained (PyVal.str "gpt2")
          (cacheDirOf demoArgs) >>= fun model =>
        pure { model := model, logs := [] } :=
  ((c1_pretrained_dispatch demoHub demoArgs (PyVal.str "gpt2") rfl).1
    (by decide)).1

/-- Witness for C8 at a concrete hub whose configuration loader fails and
concrete arguments whose pretrained identifier is `None`. -/
theorem c8_fails_without_config_witness :
    isErr (LMModule.init_model demoFailHub demoNoneArgs) = true :=
  (c8_fails_without_config demoFailHub demoNoneArgs rfl
    (fun _ _ => rfl)).1

end GT4SDCore
